import Mathlib

/-
Verification of the sidetree core: the MongoDb operation store
(MongoDbOperationStore.ts), the content fetch result model (IFetchResult.ts)
and the HTTP error surface of the transactions query.  The store is embedded
as explicit state passing over a collection of stored documents; numbers that
live in JavaScript variables are modelled as integers together with an
explicit rounding function to the nearest IEEE-754 double, since JavaScript
numbers are doubles.
-/

/-- A JavaScript error as observed by the catch branch of put: its name and
its numeric code. -/
structure JsError where
  name : String
  code : Int
deriving DecidableEq

/-- A BSON value appearing in a stored operation document. -/
inductive BsonValue where
  | num (n : Int)
  | str (s : String)
  | bin (b : List Nat)
deriving DecidableEq

/-- Sidetree operation stored in MongoDb (interface IMongoOperation).  The
shorter property name opIndex is used instead of operationIndex because of a
CosmosDB/MongoDB constraint: the sum of property names of unique index keys
must stay below 40 characters.  opIndex and transactionNumber are stored as
Long (64-bit integer) values; the operation bytes are stored as a BSON
Binary, modelled as a list of bytes. -/
structure IMongoOperation where
  didUniqueSuffix : String
  operationBufferBsonBinary : List Nat
  opIndex : Int
  transactionNumber : Int
  transactionTime : Int
  batchFileHash : String
deriving DecidableEq

/-- Field lookup on a stored operation document, as MongoDb sees it: exactly
the six fields written by convertToMongoOperation exist; every other field
name is absent. -/
def mongoFieldValue (doc : IMongoOperation) : String → Option BsonValue
  | "didUniqueSuffix" => some (.str doc.didUniqueSuffix)
  | "operationBufferBsonBinary" => some (.bin doc.operationBufferBsonBinary)
  | "opIndex" => some (.num doc.opIndex)
  | "transactionNumber" => some (.num doc.transactionNumber)
  | "transactionTime" => some (.num doc.transactionTime)
  | "batchFileHash" => some (.str doc.batchFileHash)
  | _ => none

/-- Rank of a BSON type in the MongoDb cross-type sort order (numbers before
strings before binary data). -/
def bsonTypeRank : BsonValue → Nat
  | .num _ => 1
  | .str _ => 2
  | .bin _ => 3

/-- Lexicographic comparison of byte lists. -/
def compareListNat : List Nat → List Nat → Ordering
  | [], [] => .eq
  | [], _ :: _ => .lt
  | _ :: _, [] => .gt
  | a :: as, b :: bs =>
    match compare a b with
    | .eq => compareListNat as bs
    | o => o

/-- Comparison of two BSON values: same types compare by value, different
types by type rank. -/
def compareBsonValue : BsonValue → BsonValue → Ordering
  | .num a, .num b => compare a b
  | .str a, .str b => compare a b
  | .bin a, .bin b => compareListNat a b
  | a, b => compare (bsonTypeRank a) (bsonTypeRank b)

/-- MongoDb comparison of a possibly missing field value: a missing field
sorts as null, before every present value. -/
def compareMongoField : Option BsonValue → Option BsonValue → Ordering
  | none, none => .eq
  | none, some _ => .lt
  | some _, none => .gt
  | some a, some b => compareBsonValue a b

/-- Compare two stored documents by a list of ascending sort fields, as a
MongoDb sort does: the first field decides unless equal, then the next one,
and so on. -/
def mongoCompareDocs (fields : List String) (a b : IMongoOperation) : Ordering :=
  match fields with
  | [] => .eq
  | f :: rest =>
    match compareMongoField (mongoFieldValue a f) (mongoFieldValue b f) with
    | .eq => mongoCompareDocs rest a b
    | o => o

/-- Stable insertion into an already sorted list: the new element goes before
the first strictly greater element, hence after every element equal to it. -/
def stableInsert (cmp : IMongoOperation → IMongoOperation → Ordering)
    (x : IMongoOperation) : List IMongoOperation → List IMongoOperation
  | [] => [x]
  | y :: ys => if cmp y x = .gt then x :: y :: ys else y :: stableInsert cmp x ys

/-- Stable sort: documents with equal sort keys keep their collection order,
which is how a MongoDb sort behaves when the sort key does not discriminate. -/
def stableSort (cmp : IMongoOperation → IMongoOperation → Ordering)
    (l : List IMongoOperation) : List IMongoOperation :=
  l.foldl (fun acc x => stableInsert cmp x acc) []

/-- A MongoDb index specification: the list of indexed field names and
whether the index is unique. -/
structure IndexSpec where
  keys : List String
  unique : Bool
deriving DecidableEq

/-- The unique index created by the store on didUniqueSuffix,
transactionNumber, opIndex, so that duplicate inserts are rejected. -/
def opUniqueIndex : IndexSpec :=
  { keys := ["didUniqueSuffix", "transactionNumber", "opIndex"], unique := true }

/-- A MongoDb collection: the stored documents in collection (insertion)
order, plus the indexes declared on the collection. -/
structure MongoCollection where
  docs : List IMongoOperation
  indexes : List IndexSpec
deriving DecidableEq

/-- True when inserting doc would violate some unique index of the
collection: an already stored document agrees with doc on every indexed
field. -/
def hasUniqueConflict (c : MongoCollection) (doc : IMongoOperation) : Bool :=
  c.indexes.any fun ix =>
    ix.unique && c.docs.any fun d =>
      ix.keys.all fun f => mongoFieldValue d f == mongoFieldValue doc f

/-- Single document insert under the unique indexes of the collection: a
conflicting insert is rejected by the index (duplicate key, error code
11000) and leaves the collection unchanged; the Bool reports whether a
duplicate was rejected. -/
def insertIfNoConflict (c : MongoCollection) (doc : IMongoOperation) :
    MongoCollection × Bool :=
  if hasUniqueConflict c doc then (c, true)
  else ({ c with docs := c.docs ++ [doc] }, false)

/-- Execution of an unordered bulk insert: every insert is attempted,
duplicate-key failures do not stop the remaining inserts; the Bool reports
whether any duplicate occurred, in which case execute raises a
BulkWriteError with code 11000. -/
def bulkExecute (c : MongoCollection) (docs : List IMongoOperation) :
    MongoCollection × Bool :=
  docs.foldl (fun acc d =>
    let r := insertIfNoConflict acc.1 d
    (r.1, acc.2 || r.2)) (c, false)

/-- Long.fromNumber of the MongoDb driver: a finite numeric value is clamped
into the signed 64-bit range. -/
def longFromNumber (value : Int) : Int :=
  if value ≤ -(2 ^ 63) then -(2 ^ 63)
  else if value + 1 ≥ 2 ^ 63 then 2 ^ 63 - 1
  else value

/-- Floor of the base-2 logarithm by fuelled halving; the first argument is
fuel and every use supplies at least the number itself as fuel. -/
def natLog2Aux : Nat → Nat → Nat
  | 0, _ => 0
  | fuel + 1, n => if n ≥ 2 then natLog2Aux fuel (n / 2) + 1 else 0

/-- Floor of the base-2 logarithm. -/
def natLog2 (n : Nat) : Nat := natLog2Aux n n

/-- Division by 2 ^ s rounding to nearest, ties to even. -/
def roundHalfEvenDiv (a : Nat) (s : Nat) : Nat :=
  let q := a / 2 ^ s
  let r := a % 2 ^ s
  if 2 * r < 2 ^ s then q
  else if 2 * r > 2 ^ s then q + 1
  else if q % 2 = 0 then q else q + 1

/-- Nearest IEEE-754 double to a natural number: exact up to 2 ^ 53, beyond
that the value is rounded to a 53-bit significand, ties to even. -/
def natRoundToDouble (a : Nat) : Nat :=
  if a ≤ 2 ^ 53 then a
  else
    let s := natLog2 a - 52
    roundHalfEvenDiv a s * 2 ^ s

/-- Nearest IEEE-754 double to an integer.  JavaScript numbers are doubles:
this is the value a JavaScript number variable actually holds for an ideal
integer, and the value produced when the driver converts a stored Long back
to a number. -/
def roundToDouble (n : Int) : Int :=
  if n < 0 then -(natRoundToDouble n.natAbs : Int) else (natRoundToDouble n.natAbs : Int)

/-- The driver returns stored documents with Long fields automatically
converted to JavaScript numbers (see the note on convertToOperation in the
source); only transactionNumber is stored as a Long. -/
def driverReadBack (doc : IMongoOperation) : IMongoOperation :=
  { doc with transactionNumber := roundToDouble doc.transactionNumber }

/-- Modelled from the spec: the resolved anchoring transaction argument of
createAnchoredOperation (the Operation class and its source file are not
part of the visible store source). -/
structure ResolvedTransaction where
  transactionNumber : Int
  transactionTime : Int
  transactionTimeHash : String
  anchorFileHash : String
  batchFileHash : String
deriving DecidableEq

/-- Modelled from the spec: the Operation Record of section 3, the canonical
in-memory representation of one anchored identity operation, carrying the
DID suffix, the raw operation bytes and the anchoring coordinates. -/
structure Operation where
  didUniqueSuffix : String
  operationBuffer : List Nat
  operationIndex : Int
  transactionNumber : Int
  transactionTime : Int
  batchFileHash : String
deriving DecidableEq

/-- Modelled from the spec: the DID unique suffix is a content-derived
string identity of the raw operation bytes; a stand-in for the hash
derivation performed by the missing Operation class. -/
def Operation.didUniqueSuffixOfBuffer (buffer : List Nat) : String :=
  toString buffer

/-- Modelled from the spec: Operation.createAnchoredOperation builds the
Operation Record from the raw operation bytes, the resolved anchoring
transaction and the index of the operation within its batch. -/
def Operation.createAnchoredOperation (operationBuffer : List Nat)
    (resolvedTransaction : ResolvedTransaction) (operationIndex : Int) : Operation :=
  { didUniqueSuffix := Operation.didUniqueSuffixOfBuffer operationBuffer
    operationBuffer := operationBuffer
    operationIndex := operationIndex
    transactionNumber := resolvedTransaction.transactionNumber
    transactionTime := resolvedTransaction.transactionTime
    batchFileHash := resolvedTransaction.batchFileHash }

/-- Convert a Sidetree operation to the minimal IMongoOperation stored on
MongoDb: the operation bytes become a BSON Binary, the transactionNumber
becomes a Long through Long.fromNumber. -/
def MongoDbOperationStore.convertToMongoOperation (operation : Operation) :
    IMongoOperation :=
  { didUniqueSuffix := operation.didUniqueSuffix
    operationBufferBsonBinary := operation.operationBuffer
    opIndex := operation.operationIndex
    transactionNumber := longFromNumber operation.transactionNumber
    transactionTime := operation.transactionTime
    batchFileHash := operation.batchFileHash }

/-- Convert a MongoDb representation of an operation back to a Sidetree
operation through Operation.createAnchoredOperation; transactionTimeHash and
anchorFileHash are not stored and come back as the string "unavailable". -/
def MongoDbOperationStore.convertToOperation (mongoOperation : IMongoOperation) :
    Operation :=
  Operation.createAnchoredOperation
    mongoOperation.operationBufferBsonBinary
    { transactionNumber := mongoOperation.transactionNumber
      transactionTime := mongoOperation.transactionTime
      transactionTimeHash := "unavailable"
      anchorFileHash := "unavailable"
      batchFileHash := mongoOperation.batchFileHash }
    mongoOperation.opIndex

/-- The error classification of the catch branch of put: the error is
rethrown (some) unless its name is BulkWriteError and its code is 11000, in
which case it is swallowed (none). -/
def MongoDbOperationStore.putCatch (error : JsError) : Option JsError :=
  if error.name ≠ "BulkWriteError" ∨ error.code ≠ 11000 then some error else none

/-- MongoDbOperationStore.put: convert each operation, insert all of them as
one unordered bulk, and route the duplicate-key BulkWriteError of execute
through the catch classification; the second component is the error the
caller observes, none when the call succeeds. -/
def MongoDbOperationStore.put (c : MongoCollection) (operations : List Operation) :
    MongoCollection × Option JsError :=
  let r := bulkExecute c (operations.map MongoDbOperationStore.convertToMongoOperation)
  (r.1, if r.2 then MongoDbOperationStore.putCatch ⟨"BulkWriteError", 11000⟩ else none)

/-- The sort specification passed by MongoDbOperationStore.get, exactly the
field names given to sort: transactionNumber ascending then operationIndex
ascending.  Note the stored documents have no field named operationIndex. -/
def getSortFields : List String := ["transactionNumber", "operationIndex"]

/-- MongoDbOperationStore.get: find all documents with the given
didUniqueSuffix in collection order, sort them by getSortFields, read them
back through the driver and convert each one to an Operation. -/
def MongoDbOperationStore.get (c : MongoCollection) (didUniqueSuffix : String) :
    List Operation :=
  ((stableSort (mongoCompareDocs getSortFields)
      (c.docs.filter fun d => d.didUniqueSuffix == didUniqueSuffix)).map
    driverReadBack).map MongoDbOperationStore.convertToOperation

/-- MongoDbOperationStore.delete.  In JavaScript the test on the optional
transactionNumber argument is falsy both for undefined and for 0, so both
run the unrestricted deleteMany; a nonzero transactionNumber deletes exactly
the documents with transactionNumber strictly greater than
Long.fromNumber of the argument. -/
def MongoDbOperationStore.delete (c : MongoCollection)
    (transactionNumber : Option Int) : MongoCollection :=
  match transactionNumber with
  | some n =>
    if n = 0 then { c with docs := [] }
    else { c with docs := c.docs.filter fun d => decide (d.transactionNumber ≤ longFromNumber n) }
  | none => { c with docs := [] }

/-- MongoDbOperationStore.initialize, named initStore here: when the
operation collection already exists it is used as is; otherwise it is
created, together with the unique index on didUniqueSuffix,
transactionNumber, opIndex. -/
def MongoDbOperationStore.initStore (db : List (String × MongoCollection))
    (operationCollectionName : String) : List (String × MongoCollection) :=
  if (db.map Prod.fst).contains operationCollectionName then db
  else db ++ [(operationCollectionName, { docs := [], indexes := [opUniqueIndex] })]

/-- Modelled from the spec: FetchResultCode, the closed set of fetch
outcomes of section 4.3 (the FetchResultCode source file is not included
with the store source). -/
inductive FetchResultCode where
  | success
  | notFound
  | invalidHash
  | maxSizeExceeded
  | notAFile
deriving DecidableEq

/-- Data structure representing the result of a content fetch from the
Content Addressable Storage (IFetchResult.ts): a return code, and an
optional content buffer. -/
structure IFetchResult where
  code : FetchResultCode
  content : Option (List Nat)
deriving DecidableEq

/-- Modelled from the spec: the possible outcomes of one fetch attempt
against content-addressable storage, section 4.3. -/
inductive FetchOutcome where
  | fetched (content : List Nat)
  | missing
  | badHash
  | tooLarge
  | unreadable
deriving DecidableEq

/-- Modelled from the spec: the fetch operation of the content-addressable
storage boundary produces one IFetchResult for each outcome; only a
successful fetch carries content (sections 4.3 and 6). -/
def fetchResultOfOutcome : FetchOutcome → IFetchResult
  | .fetched content => { code := .success, content := some content }
  | .missing => { code := .notFound, content := none }
  | .badHash => { code := .invalidHash, content := none }
  | .tooLarge => { code := .maxSizeExceeded, content := none }
  | .unreadable => { code := .notAFile, content := none }

/-- Modelled from the spec: a transaction returned by the blockchain
synchronization query; only the fields relevant at the edge are kept. -/
structure BlockchainTransaction where
  transactionNumber : Int
  transactionTimeHash : String
deriving DecidableEq

/-- Outcome of the synchronization service transactions query: either a
transaction list, or a typed error carrying a machine-readable code
string. -/
inductive TransactionsFetchResult where
  | ok (transactions : List BlockchainTransaction)
  | err (code : String)
deriving DecidableEq

/-- An HTTP response at the edge: the status, the code field of the JSON
body when present, and the transactions of the JSON body. -/
structure HttpJsonResponse where
  status : Nat
  bodyCode : Option String
  bodyTransactions : List BlockchainTransaction
deriving DecidableEq

/-- Modelled from the spec: the HTTP edge for GET /transactions, section 6:
an InvalidTransactionNumberOrTimeHash failure of the synchronization service
renders as client error 400 whose JSON body carries the code; other internal
errors render as 500 without internal detail; success returns the
transactions. -/
def handleTransactionsRequest : TransactionsFetchResult → HttpJsonResponse
  | .ok transactions => { status := 200, bodyCode := none, bodyTransactions := transactions }
  | .err code =>
    if code = "InvalidTransactionNumberOrTimeHash" then
      { status := 400, bodyCode := some code, bodyTransactions := [] }
    else
      { status := 500, bodyCode := none, bodyTransactions := [] }

/-- The transactionNumber value a caller reads back after put and get: the
in-memory number is a double, put stores Long.fromNumber of it, and get
returns it through the driver conversion of the stored Long back to a
number. -/
def persistTransactionNumber (v : Int) : Int :=
  roundToDouble (longFromNumber (roundToDouble v))

/-- A sample operation: bytes [1, 2], anchored at transaction 7, time 3,
batch index 0. -/
def opW : Operation :=
  Operation.createAnchoredOperation [1, 2] ⟨7, 3, "tth", "afh", "bfh"⟩ 0

/-- A sample collection already holding the stored form of opW, with the
unique index in place. -/
def cW : MongoCollection :=
  { docs := [MongoDbOperationStore.convertToMongoOperation opW]
    indexes := [opUniqueIndex] }

/-- A stored document with transactionNumber 0. -/
def docTn0 : IMongoOperation := ⟨"did0", [0], 0, 0, 0, "hash0"⟩

/-- A collection holding only docTn0. -/
def cTn0 : MongoCollection := { docs := [docTn0], indexes := [opUniqueIndex] }

/-- Two stored documents for the same DID and the same transactionNumber,
with opIndex 1 inserted before opIndex 0. -/
def docA : IMongoOperation := ⟨"did1", [1], 1, 1, 1, "h1"⟩

/-- The companion of docA with opIndex 0. -/
def docB : IMongoOperation := ⟨"did1", [2], 0, 1, 1, "h1"⟩

/-- A collection holding docA then docB, out of operation-index order. -/
def cOutOfOrder : MongoCollection := { docs := [docA, docB], indexes := [opUniqueIndex] }

/-
Theorems.
-/

theorem longFromNumber_eq_self (n : Int) (hlo : -(2 ^ 63) ≤ n)
    (hhi : n ≤ 2 ^ 63 - 1) : longFromNumber n = n := by
  unfold longFromNumber
  split
  · omega
  · split
    · omega
    · rfl

theorem hasUniqueConflict_of_key (c : MongoCollection) (d e : IMongoOperation)
    (hix : opUniqueIndex ∈ c.indexes) (hd : d ∈ c.docs)
    (h1 : d.didUniqueSuffix = e.didUniqueSuffix)
    (h2 : d.transactionNumber = e.transactionNumber)
    (h3 : d.opIndex = e.opIndex) :
    hasUniqueConflict c e = true := by
  unfold hasUniqueConflict
  rw [List.any_eq_true]
  refine ⟨opUniqueIndex, hix, ?_⟩
  rw [Bool.and_eq_true]
  refine ⟨rfl, ?_⟩
  rw [List.any_eq_true]
  refine ⟨d, hd, ?_⟩
  simp [opUniqueIndex, mongoFieldValue, h1, h2, h3]

/-- Claim C1 counterexample: the claim fails at the integer 0.  On a store
holding a record with transactionNumber 0, Rollback(0) empties the store,
although the claim requires every record with transactionNumber not greater
than 0 to be left untouched, which here is exactly the stored record. -/
theorem rollback_zero_counterexample :
    (MongoDbOperationStore.delete cTn0 (some 0)).docs = [] ∧
    cTn0.docs.filter (fun d => decide (d.transactionNumber ≤ 0)) = [docTn0] := by
  constructor <;> rfl

/-- Claim C1 (amended): for every nonzero transactionNumber argument in the
signed 64-bit range, Rollback removes exactly the stored records with
transactionNumber strictly greater than the argument, keeping the others in
order; Rollback with no argument removes all records; the argument 0 behaves
like the no-argument form rather than as the strict threshold. -/
theorem rollback_removes_exactly_greater (c : MongoCollection) (n : Int)
    (hnz : n ≠ 0) (hlo : -(2 ^ 63) ≤ n) (hhi : n ≤ 2 ^ 63 - 1) :
    MongoDbOperationStore.delete c (some n) =
      { c with docs := c.docs.filter fun d => decide (d.transactionNumber ≤ n) } ∧
    MongoDbOperationStore.delete c none = { c with docs := [] } := by
  constructor
  · simp only [MongoDbOperationStore.delete]
    rw [if_neg hnz, longFromNumber_eq_self n hlo hhi]
  · rfl

/-- Witness for the amended claim C1 at a concrete store and threshold 5. -/
theorem rollback_removes_exactly_greater_witness :
    MongoDbOperationStore.delete cTn0 (some 5) =
      { cTn0 with docs := cTn0.docs.filter fun d => decide (d.transactionNumber ≤ 5) } ∧
    MongoDbOperationStore.delete cTn0 none = { cTn0 with docs := [] } :=
  rollback_removes_exactly_greater cTn0 5 (by decide) (by decide) (by decide)

/-- Claim C10: the store delete with argument 0 runs the same branch as the
no-argument full reset and empties the store, so records with
transactionNumber not greater than 0 are deleted as well. -/
theorem rollback_zero_equals_full_reset (c : MongoCollection) :
    MongoDbOperationStore.delete c (some 0) = MongoDbOperationStore.delete c none ∧
    (MongoDbOperationStore.delete c (some 0)).docs = [] := by
  constructor <;> rfl

/-- Claim C2 (code bug): get sorts on the field name operationIndex, which no
stored document carries, since the stored field is named opIndex; two
operations for one DID with equal transactionNumber therefore come back in
collection order, here operation index 1 before operation index 0, not
ascending by operation index as the documentation of get states. -/
theorem get_returns_out_of_order_on_equal_transaction_number :
    (MongoDbOperationStore.get cOutOfOrder "did1").map Operation.operationIndex = [1, 0] ∧
    mongoFieldValue docA "operationIndex" = none := by
  constructor <;> rfl

/-- Claim C3: put is idempotent with respect to already present records: on
any store carrying the unique index, putting a record whose key
(didUniqueSuffix, transactionNumber, opIndex) is already stored leaves the
collection unchanged and reports no error to the caller. -/
theorem put_idempotent_on_duplicate (c : MongoCollection) (op : Operation)
    (hix : opUniqueIndex ∈ c.indexes)
    (hdup : ∃ d ∈ c.docs,
      d.didUniqueSuffix = (MongoDbOperationStore.convertToMongoOperation op).didUniqueSuffix ∧
      d.transactionNumber = (MongoDbOperationStore.convertToMongoOperation op).transactionNumber ∧
      d.opIndex = (MongoDbOperationStore.convertToMongoOperation op).opIndex) :
    MongoDbOperationStore.put c [op] = (c, none) := by
  obtain ⟨d, hd, h1, h2, h3⟩ := hdup
  have hc : hasUniqueConflict c (MongoDbOperationStore.convertToMongoOperation op) = true :=
    hasUniqueConflict_of_key c d _ hix hd h1 h2 h3
  simp [MongoDbOperationStore.put, bulkExecute, insertIfNoConflict, hc,
    MongoDbOperationStore.putCatch]

/-- Witness for claim C3: putting the sample operation again on the sample
collection that already stores it changes nothing and raises no error. -/
theorem put_idempotent_on_duplicate_witness :
    MongoDbOperationStore.put cW [opW] = (cW, none) :=
  put_idempotent_on_duplicate cW opW (by decide) (by decide)

/-- Claim C4: the catch branch of put suppresses an error exactly when it is
of the duplicate-key class, a BulkWriteError with code 11000; every other
error is rethrown to the caller unchanged. -/
theorem put_error_classification (error : JsError) :
    (MongoDbOperationStore.putCatch error = none ↔
      error.name = "BulkWriteError" ∧ error.code = 11000) ∧
    (MongoDbOperationStore.putCatch error = none ∨
      MongoDbOperationStore.putCatch error = some error) := by
  unfold MongoDbOperationStore.putCatch
  by_cases h1 : error.name = "BulkWriteError" <;>
    by_cases h2 : error.code = 11000 <;> simp [h1, h2]

/-- Claim C5: for every fetch outcome of the content-addressable storage
boundary, the content field of the produced IFetchResult is present exactly
when the code field is the success value. -/
theorem fetch_result_exclusivity (o : FetchOutcome) :
    (fetchResultOfOutcome o).content.isSome = true ↔
    (fetchResultOfOutcome o).code = FetchResultCode.success := by
  cases o <;> simp [fetchResultOfOutcome]

/-- Claim C6: when the transactions query of the synchronization service
fails with InvalidTransactionNumberOrTimeHash, the HTTP edge responds with
status 400 and a JSON body whose code field equals the string
InvalidTransactionNumberOrTimeHash, and returns no transactions. -/
theorem transactions_invalid_hash_http_response :
    handleTransactionsRequest
        (TransactionsFetchResult.err "InvalidTransactionNumberOrTimeHash") =
      { status := 400
        bodyCode := some "InvalidTransactionNumberOrTimeHash"
        bodyTransactions := [] } := by
  rfl

/-- Claim C7 counterexample: 2 ^ 53 + 1 is a value representable as a 64-bit
integer, yet writing it as a transactionNumber and reading it back yields
2 ^ 53, because the in-memory number and the driver read-back of the stored
Long are JavaScript doubles, which cannot hold 2 ^ 53 + 1. -/
theorem persist_loses_precision_beyond_double :
    ((2 : Int) ^ 53 + 1 ≤ 2 ^ 63 - 1) ∧
    persistTransactionNumber (2 ^ 53 + 1) = 2 ^ 53 ∧
    persistTransactionNumber (2 ^ 53 + 1) ≠ 2 ^ 53 + 1 := by
  refine ⟨by decide, by decide, by decide⟩

/-- Claim C7 (amended): transactionNumber is persisted as a signed 64-bit
integer, never as a floating-point value, and every transactionNumber in the
64-bit range that an IEEE-754 double holds exactly, in particular every
value of magnitude at most 2 ^ 53, survives a put followed by a get without
precision loss; the persisted Long value equals the number itself. -/
theorem persist_exact_for_double_values (v : Int)
    (hlo : -(2 ^ 63) ≤ v) (hhi : v ≤ 2 ^ 63 - 1)
    (hd : roundToDouble v = v) :
    persistTransactionNumber v = v ∧
    longFromNumber (roundToDouble v) = v := by
  have hl := longFromNumber_eq_self v hlo hhi
  constructor
  · unfold persistTransactionNumber
    rw [hd, hl, hd]
  · rw [hd, hl]

/-- Witness for the amended claim C7 at the transaction number used by the
end-to-end scenario of the spec. -/
theorem persist_exact_for_double_values_witness :
    persistTransactionNumber 6212927891701761 = 6212927891701761 ∧
    longFromNumber (roundToDouble 6212927891701761) = 6212927891701761 :=
  persist_exact_for_double_values 6212927891701761 (by decide) (by decide) (by decide)

/-- Claim C8: converting an operation to its stored representation and back
returns the original operation, for every operation whose DID unique suffix
is the content-derived identity of its bytes and whose transactionNumber
lies in the signed 64-bit range: no field of the Operation Record is lost
through the persisted representation. -/
theorem convert_round_trip (op : Operation)
    (hdid : op.didUniqueSuffix = Operation.didUniqueSuffixOfBuffer op.operationBuffer)
    (hlo : -(2 ^ 63) ≤ op.transactionNumber)
    (hhi : op.transactionNumber ≤ 2 ^ 63 - 1) :
    MongoDbOperationStore.convertToOperation
      (MongoDbOperationStore.convertToMongoOperation op) = op := by
  have hl := longFromNumber_eq_self op.transactionNumber hlo hhi
  unfold MongoDbOperationStore.convertToOperation
    MongoDbOperationStore.convertToMongoOperation Operation.createAnchoredOperation
  rw [hl, ← hdid]

/-- Witness for claim C8: the sample operation survives the round trip. -/
theorem convert_round_trip_witness :
    MongoDbOperationStore.convertToOperation
      (MongoDbOperationStore.convertToMongoOperation opW) = opW :=
  convert_round_trip opW rfl (by decide) (by decide)

/-- Claim C9: on first use with no existing operation collection, the store
creates the collection together with the unique index on didUniqueSuffix,
transactionNumber, opIndex; a later use with the collection present changes
nothing; and under that index every insert repeating the key triple of a
stored document is rejected as a duplicate. -/
theorem index_on_first_use_rejects_duplicates
    (db db2 : List (String × MongoCollection)) (name : String)
    (habsent : (db.map Prod.fst).contains name = false)
    (hpresent : (db2.map Prod.fst).contains name = true) :
    MongoDbOperationStore.initStore db name =
      db ++ [(name, { docs := [], indexes := [opUniqueIndex] })] ∧
    MongoDbOperationStore.initStore db2 name = db2 ∧
    (∀ c d e, opUniqueIndex ∈ c.indexes → d ∈ c.docs →
      d.didUniqueSuffix = e.didUniqueSuffix →
      d.transactionNumber = e.transactionNumber →
      d.opIndex = e.opIndex →
      insertIfNoConflict c e = (c, true)) := by
  refine ⟨?_, ?_, ?_⟩
  · unfold MongoDbOperationStore.initStore
    rw [habsent]
    simp
  · unfold MongoDbOperationStore.initStore
    rw [hpresent]
    simp
  · intro c d e hix hd h1 h2 h3
    have hc := hasUniqueConflict_of_key c d e hix hd h1 h2 h3
    simp [insertIfNoConflict, hc]

/-- Witness for claim C9: creating the collection in an empty database, the
no-op on a database already holding it, and the rejection of a duplicate of
the sample stored operation. -/
theorem index_on_first_use_rejects_duplicates_witness :
    MongoDbOperationStore.initStore [] "operations" =
      [("operations", { docs := [], indexes := [opUniqueIndex] })] ∧
    MongoDbOperationStore.initStore [("operations", cW)] "operations" =
      [("operations", cW)] ∧
    insertIfNoConflict cW (MongoDbOperationStore.convertToMongoOperation opW) =
      (cW, true) := by
  have h := index_on_first_use_rejects_duplicates [] [("operations", cW)]
    "operations" (by decide) (by decide)
  exact ⟨by simpa using h.1, h.2.1,
    h.2.2 cW (MongoDbOperationStore.convertToMongoOperation opW)
      (MongoDbOperationStore.convertToMongoOperation opW)
      (by decide) (by decide) rfl rfl rfl⟩
